import Mathlib

/-!
Verification development for the FollowChat backend.

Shallow embedding of the reply-orchestration pipeline and its dependencies:
* the message tree store (`backend/database/crud.py`),
* the upstream streaming client (`backend/llm/client.py`),
* the reply orchestrator (`backend/app/main.py`).

Machine integers are modelled as `Nat`/`Int` (SQLite row ids are positive and
never overflow in any reachable scenario), Python `None`-able values as
`Option`, Python exceptions crossing an embedded function's boundary as
`Except`.  Python `str.lower` is modelled by its action on ASCII letters
(`Char.toLower`) and `str.strip` by dropping ASCII whitespace; the keyword and pattern
data of the program only distinguishes ASCII case and common whitespace, so
these coincide with CPython on all inputs the rules can distinguish.
-/

namespace FollowChat

/-! ## Python string primitives

Computable counterparts of the Python string operations the embedded code
uses, written by structural recursion over the character list so that every
theorem can be evaluated on concrete inputs by kernel reduction. -/

/-- Python `str.strip()`: drop whitespace from both ends. -/
def pyStrip (s : String) : String :=
  String.mk (((s.toList.dropWhile Char.isWhitespace).reverse.dropWhile Char.isWhitespace).reverse)

/-- Python `s[:n]`: the first `n` characters. -/
def pyTake (s : String) (n : Nat) : String := String.mk (s.toList.take n)

/-- Python `s[n:]`: all but the first `n` characters. -/
def pyDrop (s : String) (n : Nat) : String := String.mk (s.toList.drop n)

/-- Python `s.startswith(pre)`. -/
def pyStartsWith (s pre : String) : Bool := pre.toList.isPrefixOf s.toList

/-- Python `str.lower`, by its action on ASCII letters. -/
def pyLower (s : String) : String := String.mk (s.toList.map Char.toLower)

/-! ## Data model (`backend/database/crud.py`) -/

/-- `Conversation` dataclass of `crud.py`. -/
structure Conversation where
  id : Nat
  title : String
  created_at : String
deriving DecidableEq, Repr

/-- `Message` dataclass of `crud.py`. -/
structure Message where
  id : Nat
  conversation_id : Nat
  role : String
  content : String
  order_index : Int
  summary : Option String
  parent_id : Option Nat
  assistant_reply : Option String
  created_at : String
deriving DecidableEq, Repr

/-- A Python exception escaping a `crud.py` function: either a `ValueError`
raised explicitly by the code, or a `sqlite3.IntegrityError` raised by the
database when a constraint (foreign key, unique index, primary key) fails. -/
inductive CrudErr
  | valueError (msg : String)
  | integrityError
deriving DecidableEq, Repr

/-- The SQLite database state: the `conversations` and `messages` tables in
insertion order, the two `AUTOINCREMENT` counters, and the value
`CURRENT_TIMESTAMP` would produce. -/
structure DB where
  convs : List Conversation
  msgs : List Message
  nextConvId : Nat
  nextMsgId : Nat
  now : String
deriving DecidableEq, Repr

/-- `get_conversation`: `SELECT ... FROM conversations WHERE id = ?`
(`none` models the `ValueError("Conversation ... not found")` raise). -/
def get_conversation (db : DB) (conversation_id : Nat) : Option Conversation :=
  db.convs.find? (fun c => c.id == conversation_id)

/-- `get_message`: `SELECT ... FROM messages WHERE id = ?`
(`none` models the `ValueError("Message ... not found")` raise). -/
def get_message (db : DB) (message_id : Nat) : Option Message :=
  db.msgs.find? (fun m => m.id == message_id)

/-- `_next_order_index`: `COALESCE(MAX(order_index), -1) + 1` over the
messages of one conversation. -/
def _next_order_index (db : DB) (conversation_id : Nat) : Int :=
  (db.msgs.foldl
    (fun acc m => if m.conversation_id == conversation_id then max acc m.order_index else acc)
    (-1)) + 1

/-- `create_message`.  The `role` is fixed to `"user"`; a `none`
`order_index` argument is replaced by `_next_order_index`.  The guards mirror
the constraints SQLite checks on `INSERT INTO messages`: the
`conversation_id` and `parent_id` foreign keys, the
`UNIQUE(conversation_id, order_index)` index and the integer primary key; a
violation raises `sqlite3.IntegrityError` and the transaction is rolled
back.  On success the function re-reads the row, exactly as the source
(`return get_message(message_id)`). -/
def create_message (db : DB) (conversation_id : Nat) (content : String)
    (order_index : Option Int) (summary : Option String)
    (parent_id : Option Nat) (assistant_reply : Option String) :
    Except CrudErr (Message × DB) :=
  let role := "user"
  let oidx := match order_index with
    | some v => v
    | none => _next_order_index db conversation_id
  if !(db.convs.any (fun c => c.id == conversation_id)) then
    Except.error CrudErr.integrityError
  else if (match parent_id with
      | some p => !(db.msgs.any (fun m => m.id == p))
      | none => false) then
    Except.error CrudErr.integrityError
  else if db.msgs.any (fun m => m.conversation_id == conversation_id && m.order_index == oidx) then
    Except.error CrudErr.integrityError
  else if db.msgs.any (fun m => m.id == db.nextMsgId) then
    Except.error CrudErr.integrityError
  else
    let msg : Message :=
      ⟨db.nextMsgId, conversation_id, role, content, oidx, summary, parent_id,
        assistant_reply, db.now⟩
    let db' : DB := { db with msgs := db.msgs ++ [msg], nextMsgId := db.nextMsgId + 1 }
    match get_message db' db.nextMsgId with
    | some m => Except.ok (m, db')
    | none => Except.error (CrudErr.valueError ("Message " ++ toString db.nextMsgId ++ " not found"))

/-- The keyword-argument record of `update_message`; a `none` field is "not
supplied". -/
structure MsgUpdate where
  content : Option String := none
  order_index : Option Int := none
  summary : Option String := none
  parent_id : Option Nat := none
  assistant_reply : Option String := none
deriving DecidableEq, Repr

/-- Effect of the generated `UPDATE messages SET ...` on one row. -/
def applyUpdate (u : MsgUpdate) (m : Message) : Message :=
  { m with
    content := u.content.getD m.content,
    order_index := u.order_index.getD m.order_index,
    summary := match u.summary with | some s => some s | none => m.summary,
    parent_id := match u.parent_id with | some p => some p | none => m.parent_id,
    assistant_reply := match u.assistant_reply with | some a => some a | none => m.assistant_reply }

/-- `update_message`.  Raises `ValueError` when no field is supplied; the
`UPDATE` statement rewrites every row matching the id; the guards mirror the
constraints SQLite re-checks on the modified row (the
`UNIQUE(conversation_id, order_index)` index against the other rows, and the
`parent_id` foreign key); finally the row is re-read, raising
`ValueError("Message ... not found")` when the id matches nothing. -/
def update_message (db : DB) (message_id : Nat) (u : MsgUpdate) :
    Except CrudErr (Message × DB) :=
  if u.content = none ∧ u.order_index = none ∧ u.summary = none ∧
      u.parent_id = none ∧ u.assistant_reply = none then
    Except.error (CrudErr.valueError "At least one field must be provided to update_message")
  else
    let newMsgs := db.msgs.map (fun m => if m.id == message_id then applyUpdate u m else m)
    let violIdx := match u.order_index, get_message db message_id with
      | some v, some t =>
          db.msgs.any (fun m =>
            m.id != message_id && m.conversation_id == t.conversation_id && m.order_index == v)
      | _, _ => false
    let violPar := match u.parent_id, get_message db message_id with
      | some p, some _ => !(newMsgs.any (fun m => m.id == p))
      | _, _ => false
    if violIdx || violPar then Except.error CrudErr.integrityError
    else
      let db' : DB := { db with msgs := newMsgs }
      match get_message db' message_id with
      | none => Except.error (CrudErr.valueError ("Message " ++ toString message_id ++ " not found"))
      | some m => Except.ok (m, db')

/-- `update_conversation`: raises `ValueError` when `title is None`,
otherwise rewrites the row and re-reads it. -/
def update_conversation (db : DB) (conversation_id : Nat) (title : Option String) :
    Except CrudErr (Conversation × DB) :=
  match title with
  | none =>
      Except.error (CrudErr.valueError "At least one field must be provided to update_conversation")
  | some t =>
    let newConvs := db.convs.map (fun c => if c.id == conversation_id then { c with title := t } else c)
    let db' : DB := { db with convs := newConvs }
    match get_conversation db' conversation_id with
    | none =>
        Except.error (CrudErr.valueError ("Conversation " ++ toString conversation_id ++ " not found"))
    | some c => Except.ok (c, db')

/-- One step of the `while current_id is not None` walk of
`get_message_path_to_root`, with explicit fuel.  The source loop terminates
exactly on parent chains without a cycle; on the databases the store can
actually produce, every stored parent id is smaller than its child's id
(parents are pre-existing `AUTOINCREMENT` rows), so a walk starting at id
`i` visits at most `i + 1` rows and the fuel `i + 1` used below is never
exhausted — the fueled function then computes exactly what the loop does. -/
def pathWalk (db : DB) : Nat → Option Nat → List Message
  | _, none => []
  | 0, some _ => []
  | fuel + 1, some i =>
    match get_message db i with
    | none => []
    | some m => m :: pathWalk db fuel m.parent_id

/-- `get_message_path_to_root`: collect the message and its ancestors
(silently stopping at a missing row, mirroring the `except ValueError:
break`), then reverse so the result is root-first. -/
def get_message_path_to_root (db : DB) (message_id : Nat) : List Message :=
  (pathWalk db (message_id + 1) (some message_id)).reverse

/-- Store invariant justifying the fuel of `pathWalk`: every stored parent
reference points to a row with a strictly smaller id (parents are
pre-existing rows of an `AUTOINCREMENT` table). -/
def ParentDec (db : DB) : Prop :=
  ∀ m ∈ db.msgs, ∀ p, m.parent_id = some p → p < m.id

/-- Well-formedness of the store as SQLite maintains it: the `messages`
primary key, the `UNIQUE(conversation_id, order_index)` index and the
`parent_id` foreign key. -/
def WF (db : DB) : Prop :=
  (∀ m1 ∈ db.msgs, ∀ m2 ∈ db.msgs, m1.id = m2.id → m1 = m2) ∧
  (∀ m1 ∈ db.msgs, ∀ m2 ∈ db.msgs,
      m1.conversation_id = m2.conversation_id → m1.order_index = m2.order_index → m1 = m2) ∧
  (∀ m ∈ db.msgs, ∀ p, m.parent_id = some p → ∃ mp ∈ db.msgs, mp.id = p)

instance (db : DB) : Decidable (ParentDec db) := by
  unfold ParentDec; infer_instance

instance (db : DB) : Decidable (WF db) := by
  unfold WF; infer_instance

/-! ## Upstream chat client (`backend/llm/client.py`) -/

/-- JSON values as `json.loads` produces them (numbers collapsed to `Int`;
only their truthiness is ever inspected by the client). -/
inductive Json
  | null
  | boolean (b : Bool)
  | num (n : Int)
  | str (s : String)
  | arr (xs : List Json)
  | obj (kvs : List (String × Json))
deriving Repr

/-- Python truthiness of a JSON value. -/
def pyTruthy : Json → Bool
  | Json.null => false
  | Json.boolean b => b
  | Json.num n => n != 0
  | Json.str s => s != ""
  | Json.arr xs => !xs.isEmpty
  | Json.obj kvs => !kvs.isEmpty

/-- `dict.get(key)` on a parsed JSON object (keys are unique in a parsed
dict, so first-match lookup is the dict lookup). -/
def jget (kvs : List (String × Json)) (k : String) : Option Json :=
  (kvs.find? (fun kv => kv.fst == k)).map (fun kv => kv.snd)

/-- A Python exception raised by the attribute/subscript accesses in
`_iter_sse` when a payload does not have the expected shape.  None of these
is caught anywhere in the client or the orchestrator. -/
inductive PyErr
  | attributeError
  | typeError
  | indexError
  | keyError
deriving DecidableEq, Repr

/-- `x.get(k)` — an `AttributeError` unless `x` is a dict. -/
def dictGet : Json → String → Except PyErr (Option Json)
  | Json.obj kvs, k => Except.ok (jget kvs k)
  | _, _ => Except.error PyErr.attributeError

/-- `x[0]` on a JSON value: list indexing, string indexing, `KeyError` on a
dict (JSON object keys are strings), `TypeError` otherwise. -/
def index0 : Json → Except PyErr Json
  | Json.arr (x :: _) => Except.ok x
  | Json.arr [] => Except.error PyErr.indexError
  | Json.str s =>
    match s.toList with
    | c :: _ => Except.ok (Json.str c.toString)
    | [] => Except.error PyErr.indexError
  | Json.obj _ => Except.error PyErr.keyError
  | _ => Except.error PyErr.typeError

/-- The body of `_iter_sse` after `json.loads` succeeded:
`choices = parsed.get("choices") or []`, `if not choices: continue`,
`delta = choices[0].get("delta") or {}`, `content_piece = delta.get("content")`,
`if content_piece: yield content_piece`.  Returns `none` when the line
yields nothing, `some v` for a yielded value, and an exception when an
access fails. -/
def extract_delta (parsed : Json) : Except PyErr (Option Json) :=
  match dictGet parsed "choices" with
  | Except.error e => Except.error e
  | Except.ok choices_raw =>
    let choices := match choices_raw with
      | some v => if pyTruthy v then v else Json.arr []
      | none => Json.arr []
    if !pyTruthy choices then Except.ok none
    else
      match index0 choices with
      | Except.error e => Except.error e
      | Except.ok c0 =>
        match dictGet c0 "delta" with
        | Except.error e => Except.error e
        | Except.ok delta_raw =>
          let delta := match delta_raw with
            | some v => if pyTruthy v then v else Json.obj []
            | none => Json.obj []
          match dictGet delta "content" with
          | Except.error e => Except.error e
          | Except.ok content_piece =>
            match content_piece with
            | some v => Except.ok (if pyTruthy v then some v else none)
            | none => Except.ok none

/-- `_iter_sse` over the decoded lines of the response body, parameterized
by the external `json.loads` (`none` models `json.JSONDecodeError`).
Returns the yielded deltas in order, paired with the exception that escaped
the generator, if any. -/
def _iter_sse (parse : String → Option Json) : List String → List Json × Option PyErr
  | [] => ([], none)
  | line :: rest =>
    if line = "" || !pyStartsWith line "data:" then _iter_sse parse rest
    else
      let data := pyStrip (pyDrop line 5)
      if data = "[DONE]" then ([], none)
      else
        match parse data with
        | none => _iter_sse parse rest
        | some j =>
          match extract_delta j with
          | Except.error e => ([], some e)
          | Except.ok none => _iter_sse parse rest
          | Except.ok (some v) =>
            let r := _iter_sse parse rest
            (v :: r.1, r.2)

/-- What the transport layer below `_post_stream` does for one request:
either the connection/status phase fails (any `httpx.HTTPError`, carrying
the message the client puts into `LLMClientError`), or a stream of decoded
lines arrives. -/
inductive Transport
  | failure (msg : String)
  | okStream (lines : List String)
deriving DecidableEq, Repr

/-- An error escaping the `stream`/`_post_stream` generator: the
`LLMClientError` the code raises for transport failures, or an uncaught
Python exception from `_iter_sse`. -/
inductive StreamErr
  | upstream (msg : String)
  | py (e : PyErr)
deriving DecidableEq, Repr

/-- Consuming the `_post_stream` generator to exhaustion: a transport
failure becomes `LLMClientError` (raised only once the generator body runs,
i.e. at the first advance of the iterator — generator bodies execute
nothing at call time); otherwise the SSE lines are iterated.  The
`if chunk is not None` filter of the source is vacuous because `_iter_sse`
only yields truthy values. -/
def _post_stream (parse : String → Option Json) : Transport → List Json × Option StreamErr
  | Transport.failure msg => ([], some (StreamErr.upstream msg))
  | Transport.okStream lines =>
    let r := _iter_sse parse lines
    (r.1, r.2.map StreamErr.py)

/-- The shapes of parsed payloads on which `extract_delta` raises no
exception: the payload must be a dict, a truthy `choices` must be a
non-empty list whose head is a dict, and a truthy `delta` of that head must
be a dict. -/
def wellShaped : Json → Bool
  | Json.obj kvs =>
    match jget kvs "choices" with
    | none => true
    | some c =>
      !pyTruthy c ||
      (match c with
       | Json.arr (Json.obj ckvs :: _) =>
         (match jget ckvs "delta" with
          | none => true
          | some d =>
            !pyTruthy d ||
            (match d with
             | Json.obj _ => true
             | _ => false))
       | _ => false)
  | _ => false

/-- The extraction the spec describes: "the first choice's incremental
content field, if present and non-empty, is yielded".  Stated from the
spec's words, for comparison with `extract_delta`. -/
def spec_first_choice_content (j : Json) : Option Json :=
  match j with
  | Json.obj kvs =>
    match jget kvs "choices" with
    | some (Json.arr (Json.obj ckvs :: _)) =>
      match jget ckvs "delta" with
      | some (Json.obj dkvs) =>
        match jget dkvs "content" with
        | some v => if pyTruthy v then some v else none
        | none => none
      | _ => none
    | _ => none
  | _ => none

/-! ## Canned-identity detection (`backend/app/main.py`) -/

/-- The fixed multilingual keyword list of `is_model_related_question`. -/
def model_keywords : List String :=
  ["你是什么", "你是谁", "你是什么模型", "你是什么ai", "你是什么助手",
   "什么模型", "哪个模型", "用的什么", "基于什么", "什么技术",
   "what are you", "who are you", "what model", "which model",
   "你叫什么", "你的名字", "你的身份"]

/-- The fragment of Python regular expressions the eight
`judgment_patterns` use: literals, `.*` (`.` excludes the newline), `c*`
for a single character, and the `$` anchor (end of string, or just before a
final newline). -/
inductive RE
  | lit (cs : List Char)
  | dotStar
  | charStar (c : Char)
  | endAnchor
deriving DecidableEq, Repr

/-- Suffixes reachable from `s` by consuming zero or more non-newline
characters (the states `.*` can leave behind). -/
def dotStarDrops : List Char → List (List Char)
  | [] => [[]]
  | a :: t => (a :: t) :: (if a = '\n' then [] else dotStarDrops t)

/-- Suffixes reachable from `s` by consuming zero or more copies of `c`. -/
def starDrops (c : Char) : List Char → List (List Char)
  | [] => [[]]
  | a :: t => (a :: t) :: (if a = c then starDrops c t else [])

/-- Does the pattern match starting exactly at the head of `s` (trailing
characters allowed, as under `re.search`)? -/
def matchAt : List RE → List Char → Bool
  | [], _ => true
  | RE.lit cs :: rs, s => cs.isPrefixOf s && matchAt rs (s.drop cs.length)
  | RE.dotStar :: rs, s => (dotStarDrops s).any (fun t => matchAt rs t)
  | RE.charStar c :: rs, s => (starDrops c s).any (fun t => matchAt rs t)
  | RE.endAnchor :: rs, s => (decide (s = [] ∨ s = ['\n'])) && matchAt rs s

/-- `re.search`: try every start position. -/
def reSearch (pat : List RE) (s : List Char) : Bool :=
  (s.tails).any (fun t => matchAt pat t)

/-- The eight `judgment_patterns` of `is_model_related_question`, translated
into the `RE` fragment. -/
def judgment_patterns : List (List RE) :=
  [ [RE.lit "你是".toList, RE.dotStar, RE.lit "吗".toList, RE.charStar '?', RE.endAnchor],
    [RE.lit "你是".toList, RE.dotStar, RE.lit "吗？".toList],
    [RE.lit "你是".toList, RE.dotStar, RE.lit "？".toList],
    [RE.lit "你是".toList, RE.dotStar, RE.lit "?".toList],
    [RE.lit "是不是".toList, RE.dotStar],
    [RE.lit "是否".toList, RE.dotStar],
    [RE.lit "能否".toList, RE.dotStar],
    [RE.lit "会不会".toList, RE.dotStar] ]

/-- Python `needle in hay` on strings: contiguous substring containment. -/
def strContains (hay needle : String) : Bool :=
  hay.toList.tails.any (fun t => needle.toList.isPrefixOf t)

/-- `is_model_related_question`: lower-case and strip the content, then test
keyword containment and the judgment patterns. -/
def is_model_related_question (content : String) : Bool :=
  let content_lower := pyStrip (pyLower content)
  model_keywords.any (fun k => strContains content_lower k) ||
    judgment_patterns.any (fun p => reSearch p content_lower.toList)

/-! ## Reply orchestrator (`backend/app/main.py`) -/

/-- `ASSISTANT_SYSTEM_PROMPT` of `main.py`. -/
def ASSISTANT_SYSTEM_PROMPT : String :=
  "你是 FollowChat 助手，需要根据当前会话历史回答用户最新的问题。保持专业且简洁，如信息不足请主动说明。"

/-- `MODEL_IDENTITY_RESPONSE` of `main.py`. -/
def MODEL_IDENTITY_RESPONSE : String :=
  "我是FollowChat 助手，为你提供分支对话管理。"

/-- One newline-delimited JSON frame emitted by `_stream_llm_reply`. -/
inductive Frame
  | message_id (id : Nat)
  | delta (content : String)
  | done
  | error (content : String)
deriving DecidableEq, Repr

/-- What iterating `llm_client.stream(...)` does: either it yields a finite
list of fragments and finishes, or it yields a prefix of fragments and then
raises `LLMClientError` with some message. -/
inductive StreamOutcome
  | ok (frags : List String)
  | fails (frags : List String) (msg : String)
deriving DecidableEq, Repr

/-- What `llm_client.complete(...)` does for the summary call: returns a
first choice with the given content, or raises `LLMClientError`. -/
inductive CompleteOutcome
  | ok (content : String)
  | err (msg : String)
deriving DecidableEq, Repr

/-- Observable result of running the `_stream_llm_reply` generator to
completion: the frames written to the response, the database afterwards,
whether `llm_client.stream` / `llm_client.complete` were invoked, the
exception that escaped the generator (if any), and the message list passed
to `llm_client.stream` (absent in the canned branch). -/
structure ReplyResult where
  frames : List Frame
  db : DB
  calledStream : Bool
  calledComplete : Bool
  raised : Option CrudErr
  sentMessages : Option (List (String × String))
deriving DecidableEq, Repr

/-- The prompt built in the upstream branch: the system instruction, then
for each history node in root-first order a user turn plus, when a truthy
`assistant_reply` is stored, an assistant turn (nodes with role
`"assistant"` would contribute a single assistant turn). -/
def build_llm_messages (history : List Message) : List (String × String) :=
  history.foldl
    (fun acc msg =>
      if msg.role = "user" then
        acc ++ [("user", msg.content)] ++
          (match msg.assistant_reply with
           | some r => if r = "" then [] else [("assistant", r)]
           | none => [])
      else if msg.role = "assistant" then acc ++ [("assistant", msg.content)]
      else acc)
    [("system", ASSISTANT_SYSTEM_PROMPT)]

/-- The title-update step of `_stream_llm_reply` (lines 403–408 of
`main.py`), after the summary step left the rebound `user_message` `um2`,
the database `db2` and the final `summary_text`. -/
def title_step (conversation_id : Nat) (content : String)
    (conversation : Conversation) (frames : List Frame)
    (llm_messages : List (String × String)) (um2 : Message) (db2 : DB)
    (summary_text : Option String) : ReplyResult :=
  let should_update_title := conversation.title = "新对话" ∨ conversation.title = ""
  if should_update_title ∧ um2.order_index = 0 then
    let title_candidate := match summary_text with
      | some s => if s = "" then pyStrip content else s
      | none => pyStrip content
    if title_candidate = "" then ⟨frames, db2, true, true, none, some llm_messages⟩
    else
      match update_conversation db2 conversation_id (some (pyTake title_candidate 255)) with
      | Except.ok (_, db3) => ⟨frames, db3, true, true, none, some llm_messages⟩
      | Except.error e => ⟨frames, db2, true, true, some e, some llm_messages⟩
  else ⟨frames, db2, true, true, none, some llm_messages⟩

/-- The tail of `_stream_llm_reply` after a successful upstream stream and
reply persistence (lines 386–408 of `main.py`): derive the summary
(`complete` failure silently skipped), then conditionally update the
conversation title.  `um1`/`db1` are the rebound `user_message` and the
database after the reply update. -/
def finalize_success (conversation_id : Nat) (content : String)
    (conversation : Conversation) (frames : List Frame)
    (llm_messages : List (String × String)) (um1 : Message) (db1 : DB)
    (summaryOut : CompleteOutcome) : ReplyResult :=
  let summary_text0 : Option String := match summaryOut with
    | CompleteOutcome.ok c => some (pyStrip c)
    | CompleteOutcome.err _ => none
  match (match summary_text0 with
         | some s =>
           if s = "" then Except.ok (um1, db1, summary_text0)
           else
             match update_message db1 um1.id { summary := some (pyTake s 255) } with
             | Except.ok (um2, db2) => Except.ok (um2, db2, some (pyTake s 255))
             | Except.error e => Except.error e
         | none => Except.ok (um1, db1, (none : Option String))) with
  | Except.error e => ⟨frames, db1, true, true, some e, some llm_messages⟩
  | Except.ok (um2, db2, summary_text) =>
    title_step conversation_id content conversation frames llm_messages um2 db2 summary_text

/-- The candidate conversation title the title step of `_stream_llm_reply`
computes (`summary_text or payload.content.strip()`): the persisted,
truncated summary when the summary call succeeded with non-empty trimmed
text, and the trimmed original content otherwise. -/
def title_candidate_of (so : CompleteOutcome) (content : String) : String :=
  match so with
  | CompleteOutcome.err _ => pyStrip content
  | CompleteOutcome.ok c =>
    if pyStrip c = "" then pyStrip content
    else if pyTake (pyStrip c) 255 = "" then pyStrip content else pyTake (pyStrip c) 255

/-- `_stream_llm_reply`.  The upstream calls are abstracted by their
outcomes (`streamOut`, `summaryOut`); the generator's `yield`s are
collected into `frames`; the `config.temperature` argument only flows into
the abstracted upstream calls and is therefore not represented. -/
def _stream_llm_reply (conversation_id : Nat) (content : String)
    (conversation : Conversation) (user_message : Message) (db : DB)
    (streamOut : StreamOutcome) (summaryOut : CompleteOutcome) : ReplyResult :=
  let headFrames := [Frame.message_id user_message.id]
  if is_model_related_question content then
    let deltas := MODEL_IDENTITY_RESPONSE.toList.map (fun c => Frame.delta c.toString)
    let frames := headFrames ++ deltas ++ [Frame.done]
    match update_message db user_message.id
        { assistant_reply := some MODEL_IDENTITY_RESPONSE } with
    | Except.ok (_, db1) => ⟨frames, db1, false, false, none, none⟩
    | Except.error e => ⟨frames, db, false, false, some e, none⟩
  else
    let history := get_message_path_to_root db user_message.id
    let llm_messages := build_llm_messages history
    match streamOut with
    | StreamOutcome.fails frags msg =>
      ⟨headFrames ++ frags.map Frame.delta ++ [Frame.error ("LLM 请求失败: " ++ msg)],
        db, true, false, none, some llm_messages⟩
    | StreamOutcome.ok frags =>
      let frames := headFrames ++ frags.map Frame.delta ++ [Frame.done]
      let assistant_content := pyStrip (String.join frags)
      match update_message db user_message.id { assistant_reply := some assistant_content } with
      | Except.error e => ⟨frames, db, true, false, some e, some llm_messages⟩
      | Except.ok (um1, db1) =>
        finalize_success conversation_id content conversation frames llm_messages um1 db1 summaryOut

/-! ## API layer (`backend/app/main.py` route handlers) -/

/-- Result of a route handler: success, an `HTTPException` the handler
raised deliberately, or an exception the handler did not catch (FastAPI
turns it into a 500 Internal Server Error). -/
inductive ApiResult (α : Type)
  | ok (a : α)
  | clientError (status : Nat) (detail : String)
  | serverError (e : CrudErr)
deriving DecidableEq, Repr

/-- `api_create_message`: calls `create_message(conversation_id, content)`
and maps a `ValueError` to HTTP 400; any other exception (in particular
`sqlite3.IntegrityError`) escapes. -/
def api_create_message (db : DB) (conversation_id : Nat) (content : String) :
    ApiResult (Message × DB) :=
  match create_message db conversation_id content none none none none with
  | Except.ok r => ApiResult.ok r
  | Except.error (CrudErr.valueError msg) => ApiResult.clientError 400 msg
  | Except.error CrudErr.integrityError => ApiResult.serverError CrudErr.integrityError

/-- `api_get_message_path_to_root`: the `except ValueError` branch mapping
to HTTP 404 is dead because `get_message_path_to_root` catches the
`ValueError` of `get_message` internally and never raises. -/
def api_get_message_path_to_root (db : DB) (message_id : Nat) :
    ApiResult (List Message) :=
  ApiResult.ok (get_message_path_to_root db message_id)

/-! ## Population of a conversation through `create_message` -/

/-- The `order_index` values of one conversation's messages, in table
order. -/
def conv_order_indices (db : DB) (cid : Nat) : List Int :=
  (db.msgs.filter (fun m => m.conversation_id == cid)).map (fun m => m.order_index)

/-- A database whose messages for conversation `cid` were produced solely
by successful `create_message` calls with the default (`None`)
`order_index`, starting from a state with no messages in `cid`; calls for
other conversations may interleave. -/
inductive PopulatedVia (cid : Nat) : DB → Prop
  | base (db : DB) (h : conv_order_indices db cid = []) : PopulatedVia cid db
  | step (db db' : DB) (cid' : Nat) (content : String) (s : Option String)
      (p : Option Nat) (a : Option String) (m : Message)
      (hprev : PopulatedVia cid db)
      (hok : create_message db cid' content none s p a = Except.ok (m, db')) :
      PopulatedVia cid db'

/-! ## Concrete sample states used to instantiate the theorems -/

/-- An empty database. -/
def dbEmpty : DB := ⟨[], [], 1, 1, "t0"⟩

/-- A freshly created conversation with the default placeholder title. -/
def convSample : Conversation := ⟨1, "新对话", "t0"⟩

/-- The database after `create_conversation()`. -/
def dbConvOnly : DB := ⟨[convSample], [], 2, 1, "t0"⟩

/-- The first user message of `convSample`. -/
def msgSample : Message := ⟨1, 1, "user", "hi", 0, none, none, none, "t0"⟩

/-- The database after creating `msgSample` in `dbConvOnly`. -/
def dbSample : DB := ⟨[convSample], [msgSample], 2, 2, "t0"⟩

/-- A child of `msgSample`. -/
def msgChild : Message := ⟨2, 1, "user", "more", 1, none, some 1, none, "t0"⟩

/-- The database after creating `msgChild` in `dbSample`. -/
def dbChain : DB := ⟨[convSample], [msgSample, msgChild], 2, 3, "t0"⟩

/-- A message whose parent reference resolves to no stored row. -/
def msgDangling : Message := ⟨7, 1, "user", "lost", 0, none, some 3, none, "t0"⟩

/-- A database containing a dangling parent reference. -/
def dbDangling : DB := ⟨[convSample], [msgDangling], 2, 8, "t0"⟩

/-- The gap-free ascending integer sequence `0, 1, …, n-1`. -/
def rangeInt (n : Nat) : List Int := (List.range n).map Int.ofNat

/-! ## Helper lemmas -/

lemma map_self_of {α : Type} {l : List α} {f : α → α} (h : ∀ a ∈ l, f a = a) :
    l.map f = l := by
  induction l with
  | nil => rfl
  | cons a t ih =>
    simp only [List.map_cons, h a (by simp), List.cons.injEq, true_and]
    exact ih (fun b hb => h b (by simp [hb]))

lemma find?_map_pres {α : Type} {g : α → α} {p : α → Bool}
    (hp : ∀ a, p (g a) = p a) (l : List α) :
    (l.map g).find? p = (l.find? p).map g := by
  induction l with
  | nil => rfl
  | cons a t ih =>
    simp only [List.map_cons, List.find?_cons]
    rw [hp a]
    cases haj : p a
    · simpa [haj] using ih
    · simp [haj]

lemma get_message_id_eq {db : DB} {i : Nat} {m : Message}
    (h : get_message db i = some m) : m.id = i := by
  simpa using List.find?_some h

lemma mem_of_get_message {db : DB} {i : Nat} {m : Message}
    (h : get_message db i = some m) : m ∈ db.msgs :=
  List.mem_of_find?_eq_some h

lemma get_conversation_id_eq {db : DB} {i : Nat} {c : Conversation}
    (h : get_conversation db i = some c) : c.id = i := by
  simpa using List.find?_some h

lemma applyUpdate_id (u : MsgUpdate) (m : Message) : (applyUpdate u m).id = m.id := rfl

/-- Reading any message through the row-rewrite performed by
`update_message`. -/
lemma get_message_map (db : DB) (u : MsgUpdate) (uid j : Nat) :
    get_message { db with msgs := db.msgs.map (fun mm => if mm.id == uid then applyUpdate u mm else mm) } j
      = (get_message db j).map (fun mm => if mm.id == uid then applyUpdate u mm else mm) := by
  unfold get_message
  exact find?_map_pres (fun a => by by_cases h : a.id = uid <;> simp [h, applyUpdate_id]) db.msgs

/-- Conversations are untouched by `update_message`. -/
lemma get_conversation_map_msgs (db : DB) (l : List Message) (j : Nat) :
    get_conversation { db with msgs := l } j = get_conversation db j := rfl

/-- Messages are untouched by `update_conversation`. -/
lemma get_message_map_convs (db : DB) (l : List Conversation) (j : Nat) :
    get_message { db with convs := l } j = get_message db j := rfl

/-- Success of `update_message` for an update that touches neither
`order_index` nor `parent_id` (no constraint can fail). -/
lemma update_message_ok_noconstraint (db : DB) (uid : Nat) (u : MsgUpdate) (m : Message)
    (hm : get_message db uid = some m)
    (hne : ¬(u.content = none ∧ u.order_index = none ∧ u.summary = none ∧
      u.parent_id = none ∧ u.assistant_reply = none))
    (hoi : u.order_index = none) (hpi : u.parent_id = none) :
    update_message db uid u = Except.ok (applyUpdate u m,
      { db with msgs := db.msgs.map (fun mm => if mm.id == uid then applyUpdate u mm else mm) }) := by
  unfold update_message
  rw [if_neg hne, hoi, hpi]
  simp only
  rw [get_message_map db u uid uid, hm]
  simp [get_message_id_eq hm]

/-- Success of `update_conversation` with a supplied title. -/
lemma update_conversation_ok (db : DB) (cid : Nat) (t : String) (c : Conversation)
    (hc : get_conversation db cid = some c) :
    update_conversation db cid (some t) = Except.ok ({ c with title := t },
      { db with convs := db.convs.map (fun cc => if cc.id == cid then { cc with title := t } else cc) }) := by
  unfold update_conversation
  simp only
  have hpres : ∀ a : Conversation, ((if a.id == cid then { a with title := t } else a).id == cid) = (a.id == cid) := by
    intro a; by_cases h : a.id = cid <;> simp [h]
  show (match get_conversation { db with convs := db.convs.map _ } cid with
        | none => _ | some c => _) = _
  rw [show get_conversation { db with convs := db.convs.map (fun cc => if cc.id == cid then { cc with title := t } else cc) } cid
        = (get_conversation db cid).map (fun cc => if cc.id == cid then { cc with title := t } else cc) from
      find?_map_pres hpres db.convs]
  rw [hc]
  simp [get_conversation_id_eq hc]

/-! ## C10 -/

/-- C10: calling `get_message_path_to_root` with an id that references no
stored message raises no error and returns the empty sequence; the public
path-to-root endpoint therefore reports success with zero results, never a
NotFound error. -/
theorem path_to_root_missing_id (db : DB) (i : Nat)
    (h : get_message db i = none) :
    get_message_path_to_root db i = [] ∧
    api_get_message_path_to_root db i = ApiResult.ok [] ∧
    (∀ db' : DB, ∀ j : Nat, ∃ l, api_get_message_path_to_root db' j = ApiResult.ok l) := by
  have h1 : get_message_path_to_root db i = [] := by
    unfold get_message_path_to_root
    rw [pathWalk, h]
    rfl
  exact ⟨h1, by rw [api_get_message_path_to_root, h1], fun db' j => ⟨_, rfl⟩⟩

/-- Witness for C10 at a concrete store and id. -/
theorem path_to_root_missing_id_witness :
    get_message_path_to_root dbEmpty 5 = [] ∧
    api_get_message_path_to_root dbEmpty 5 = ApiResult.ok [] ∧
    (∀ db' : DB, ∀ j : Nat, ∃ l, api_get_message_path_to_root db' j = ApiResult.ok l) :=
  path_to_root_missing_id dbEmpty 5 rfl

/-! ## C8 -/

/-- C8: creating a message under a conversation id that references no
existing conversation does not fail with the client-facing
InvalidInput/`ValueError` the spec requires: the `INSERT` raises
`sqlite3.IntegrityError`, which `api_create_message`'s `except ValueError`
does not catch, so the request fails as an uncaught storage-level error
(HTTP 500) instead of a 400.  Evaluated at the failing input: an empty
store and conversation id 1. -/
theorem create_message_missing_conversation_integrity_error :
    create_message dbEmpty 1 "hello" none none none none
      = Except.error CrudErr.integrityError ∧
    (∀ s : String, create_message dbEmpty 1 "hello" none none none none
      ≠ Except.error (CrudErr.valueError s)) ∧
    api_create_message dbEmpty 1 "hello" = ApiResult.serverError CrudErr.integrityError ∧
    (∀ st : Nat, ∀ d : String, api_create_message dbEmpty 1 "hello" ≠ ApiResult.clientError st d) := by
  have h1 : create_message dbEmpty 1 "hello" none none none none
      = Except.error CrudErr.integrityError := rfl
  have h2 : api_create_message dbEmpty 1 "hello" = ApiResult.serverError CrudErr.integrityError := rfl
  refine ⟨h1, ?_, h2, ?_⟩
  · intro s hs
    rw [h1] at hs
    exact CrudErr.noConfusion (Except.error.inj hs)
  · intro st d hd
    rw [h2] at hd
    exact ApiResult.noConfusion hd

/-! ## C2 -/

lemma pathWalk_head {db : DB} {fuel : Nat} {oid : Option Nat} {x : Message}
    (h : (pathWalk db fuel oid).head? = some x) :
    ∃ j, oid = some j ∧ get_message db j = some x := by
  match fuel, oid with
  | fuel, none => simp [pathWalk] at h
  | 0, some i => simp [pathWalk] at h
  | fuel + 1, some i =>
    cases hg : get_message db i with
    | none => rw [pathWalk, hg] at h; simp at h
    | some m =>
      rw [pathWalk, hg] at h
      simp only [List.head?_cons, Option.some.injEq] at h
      exact ⟨i, rfl, by rw [hg, h]⟩

lemma pathWalk_chain (db : DB) :
    ∀ fuel oid, List.Chain' (fun a b => a.parent_id = some b.id) (pathWalk db fuel oid) := by
  intro fuel
  induction fuel with
  | zero => intro oid; cases oid <;> simp [pathWalk]
  | succ f ih =>
    intro oid
    cases oid with
    | none => simp [pathWalk]
    | some i =>
      cases hg : get_message db i with
      | none => rw [pathWalk, hg]; exact List.chain'_nil
      | some m =>
        rw [pathWalk, hg]
        rw [List.chain'_cons']
        refine ⟨?_, ih m.parent_id⟩
        intro b hb
        obtain ⟨j, hj, hgj⟩ := pathWalk_head (Option.mem_def.mp hb)
        rw [hj, get_message_id_eq hgj]

lemma pathWalk_none_eq_nil (db : DB) (f : Nat) : pathWalk db f none = [] := by
  cases f <;> rfl

lemma pathWalk_last {db : DB} (hpd : ParentDec db) :
    ∀ fuel i x, i + 1 ≤ fuel →
      (pathWalk db fuel (some i)).getLast? = some x →
      x.parent_id = none ∨ ∃ p, x.parent_id = some p ∧ get_message db p = none := by
  intro fuel
  induction fuel with
  | zero => intro i x hle h; omega
  | succ f ih =>
    intro i x hle h
    cases hg : get_message db i with
    | none => rw [pathWalk, hg] at h; simp at h
    | some m =>
      have h' : (m :: pathWalk db f m.parent_id).getLast? = some x := by
        rw [pathWalk, hg] at h; exact h
      cases hpp : m.parent_id with
      | none =>
        rw [hpp, pathWalk_none_eq_nil] at h'
        simp only [List.getLast?_singleton, Option.some.injEq] at h'
        exact Or.inl (h' ▸ hpp)
      | some p =>
        have hmid : m.id = i := get_message_id_eq hg
        have hpi : p < i := by
          have := hpd m (mem_of_get_message hg) p hpp
          omega
        rw [hpp] at h'
        cases hrest : pathWalk db f (some p) with
        | nil =>
          have hfpos : ∃ g, f = g + 1 := ⟨f - 1, by omega⟩
          obtain ⟨g, rfl⟩ := hfpos
          have hpnone : get_message db p = none := by
            cases hgp : get_message db p with
            | none => rfl
            | some mm =>
              have : pathWalk db (g + 1) (some p) = mm :: pathWalk db g mm.parent_id := by
                rw [pathWalk, hgp]
              rw [this] at hrest
              exact absurd hrest (by simp)
          rw [hrest] at h'
          simp only [List.getLast?_singleton, Option.some.injEq] at h'
          exact Or.inr ⟨p, h' ▸ hpp, hpnone⟩
        | cons y ys =>
          rw [hrest, List.getLast?_cons_cons, ← hrest] at h'
          exact ih p x (by omega) h'

/-- C2: for a stored message `m` (under the store invariant that parent
ids are strictly smaller than child ids), `get_message_path_to_root`
returns a root-first path ending at `m` whose consecutive pairs satisfy
`path[i+1].parent_id = path[i].id`; a root message yields a path of length
exactly 1; a dangling parent reference silently terminates the walk with
the messages visited so far (never an error); and the first element is a
root or the owner of the dangling reference. -/
theorem path_to_root_spec (db : DB) (i : Nat) (m : Message)
    (hpd : ParentDec db) (hm : get_message db i = some m) :
    (get_message_path_to_root db i).getLast? = some m ∧
    List.Chain' (fun a b => b.parent_id = some a.id) (get_message_path_to_root db i) ∧
    (m.parent_id = none → get_message_path_to_root db i = [m]) ∧
    (∀ p, m.parent_id = some p → get_message db p = none →
      get_message_path_to_root db i = [m]) ∧
    (∀ h0, (get_message_path_to_root db i).head? = some h0 →
      h0.parent_id = none ∨ ∃ p, h0.parent_id = some p ∧ get_message db p = none) := by
  have hwalk : pathWalk db (i + 1) (some i) = m :: pathWalk db i m.parent_id := by
    rw [pathWalk, hm]
  refine ⟨?_, ?_, ?_, ?_, ?_⟩
  · rw [get_message_path_to_root, List.getLast?_reverse, hwalk]
    rfl
  · rw [get_message_path_to_root]
    exact List.chain'_reverse.mpr (pathWalk_chain db (i + 1) (some i))
  · intro hroot
    rw [get_message_path_to_root, hwalk, hroot, pathWalk_none_eq_nil]
    rfl
  · intro p hp hnone
    rw [get_message_path_to_root, hwalk, hp]
    cases i with
    | zero => rfl
    | succ k => rw [pathWalk, hnone]; rfl
  · intro h0 hh0
    rw [get_message_path_to_root, List.head?_reverse] at hh0
    exact pathWalk_last hpd (i + 1) i h0 (Nat.le_refl _) hh0

/-- Witness for C2: a two-message chain and a message owning a dangling
parent reference. -/
theorem path_to_root_spec_witness :
    ((get_message_path_to_root dbChain 2).getLast? = some msgChild ∧
      List.Chain' (fun a b => b.parent_id = some a.id) (get_message_path_to_root dbChain 2) ∧
      (msgChild.parent_id = none → get_message_path_to_root dbChain 2 = [msgChild]) ∧
      (∀ p, msgChild.parent_id = some p → get_message dbChain p = none →
        get_message_path_to_root dbChain 2 = [msgChild]) ∧
      (∀ h0, (get_message_path_to_root dbChain 2).head? = some h0 →
        h0.parent_id = none ∨ ∃ p, h0.parent_id = some p ∧ get_message dbChain p = none)) ∧
    (∀ p, msgDangling.parent_id = some p → get_message dbDangling p = none →
      get_message_path_to_root dbDangling 7 = [msgDangling]) :=
  ⟨path_to_root_spec dbChain 2 msgChild (by decide) rfl,
   (path_to_root_spec dbDangling 7 msgDangling (by decide) rfl).2.2.2.1⟩

/-! ## C9 -/

/-- C9: on a well-formed store, updating an existing message with fields
that all carry their already-current stored values succeeds and leaves the
stored row (and the whole store) observably unchanged, so applying the
same update twice equals applying it once; updating with no fields
supplied fails with the InvalidInput `ValueError` and changes nothing. -/
theorem update_message_noop_idempotent (db : DB) (m : Message) (u : MsgUpdate)
    (hwf : WF db) (hm : get_message db m.id = some m)
    (hc : ∀ s, u.content = some s → s = m.content)
    (hoi : ∀ v, u.order_index = some v → v = m.order_index)
    (hs : ∀ s, u.summary = some s → m.summary = some s)
    (hp : ∀ p, u.parent_id = some p → m.parent_id = some p)
    (ha : ∀ a, u.assistant_reply = some a → m.assistant_reply = some a)
    (hne : ¬(u.content = none ∧ u.order_index = none ∧ u.summary = none ∧
      u.parent_id = none ∧ u.assistant_reply = none)) :
    update_message db m.id u = Except.ok (m, db) ∧
    update_message db m.id {} =
      Except.error (CrudErr.valueError "At least one field must be provided to update_message") := by
  have hmem : m ∈ db.msgs := mem_of_get_message hm
  have happ : applyUpdate u m = m := by
    have h1 : u.content.getD m.content = m.content := by
      cases hcc : u.content with
      | none => rfl
      | some s => simpa using hc s hcc
    have h2 : u.order_index.getD m.order_index = m.order_index := by
      cases hcc : u.order_index with
      | none => rfl
      | some v => simpa using hoi v hcc
    have h3 : (match u.summary with | some s => some s | none => m.summary) = m.summary := by
      cases hcc : u.summary with
      | none => rfl
      | some s => exact (hs s hcc).symm
    have h4 : (match u.parent_id with | some p => some p | none => m.parent_id) = m.parent_id := by
      cases hcc : u.parent_id with
      | none => rfl
      | some p => exact (hp p hcc).symm
    have h5 : (match u.assistant_reply with | some a => some a | none => m.assistant_reply)
        = m.assistant_reply := by
      cases hcc : u.assistant_reply with
      | none => rfl
      | some a => exact (ha a hcc).symm
    simp [applyUpdate, h1, h2, h3, h4, h5]
  have hsame : ∀ mm ∈ db.msgs, mm.id = m.id → mm = m := by
    intro mm hmm hid
    exact hwf.1 mm hmm m hmem hid
  have hmap : db.msgs.map (fun mm => if mm.id == m.id then applyUpdate u mm else mm) = db.msgs := by
    apply map_self_of
    intro a haem
    by_cases hid : a.id = m.id
    · rw [if_pos (by simpa using hid), hsame a haem hid, happ]
    · rw [if_neg (by simpa using hid)]
  constructor
  · unfold update_message
    rw [if_neg hne]
    simp only
    have hviolIdx : (match u.order_index, get_message db m.id with
        | some v, some t =>
            db.msgs.any (fun mm =>
              mm.id != m.id && mm.conversation_id == t.conversation_id && mm.order_index == v)
        | _, _ => false) = false := by
      cases hcc : u.order_index with
      | none => rfl
      | some v =>
        rw [hm]
        show (db.msgs.any fun mm =>
          mm.id != m.id && mm.conversation_id == m.conversation_id && mm.order_index == v) = false
        rw [List.any_eq_false]
        intro mm hmm hcontra
        simp only [Bool.and_eq_true, bne_iff_ne, ne_eq, beq_iff_eq] at hcontra
        obtain ⟨⟨hid, hcid⟩, hov⟩ := hcontra
        exact hid (congrArg Message.id
          (hwf.2.1 mm hmm m hmem hcid (by rw [hov, hoi v hcc])))
    have hviolPar : (match u.parent_id, get_message db m.id with
        | some p, some _ =>
            !((db.msgs.map (fun mm => if mm.id == m.id then applyUpdate u mm else mm)).any
              (fun mm => mm.id == p))
        | _, _ => false) = false := by
      cases hcc : u.parent_id with
      | none => rfl
      | some p =>
        rw [hm]
        show (!((db.msgs.map (fun mm => if mm.id == m.id then applyUpdate u mm else mm)).any
          (fun mm => mm.id == p))) = false
        rw [hmap]
        have hany : (db.msgs.any fun mm => mm.id == p) = true := by
          rw [List.any_eq_true]
          obtain ⟨mp, hmp, hmpid⟩ := hwf.2.2 m hmem p (hp p hcc)
          exact ⟨mp, hmp, by simpa using hmpid⟩
        rw [hany]
        rfl
    rw [hviolIdx, hviolPar]
    simp only [Bool.or_self, Bool.false_eq_true, if_false]
    rw [show ({ db with msgs := db.msgs.map (fun mm => if mm.id == m.id then applyUpdate u mm else mm) } : DB)
          = db from by rw [hmap]]
    rw [hm]
  · rfl

/-- Witness for C9: re-supplying the current content and order index of a
stored message. -/
theorem update_message_noop_idempotent_witness :
    update_message dbSample 1 { content := some "hi", order_index := some 0 }
      = Except.ok (msgSample, dbSample) ∧
    update_message dbSample 1 {} =
      Except.error (CrudErr.valueError "At least one field must be provided to update_message") :=
  update_message_noop_idempotent dbSample msgSample
    { content := some "hi", order_index := some 0 }
    (by decide) rfl
    (by intro s h; cases h; rfl)
    (by intro v h; cases h; rfl)
    (by intro s h; cases h)
    (by intro p h; cases h)
    (by intro a h; cases h)
    (by simp)

/-! ## C5 -/

lemma foldl_max_filter (cid : Nat) (l : List Message) (a : Int) :
    l.foldl (fun acc m => if m.conversation_id == cid then max acc m.order_index else acc) a
      = ((l.filter (fun m => m.conversation_id == cid)).map (fun m => m.order_index)).foldl max a := by
  induction l generalizing a with
  | nil => rfl
  | cons m t ih =>
    by_cases h : m.conversation_id = cid
    · have hb : (m.conversation_id == cid) = true := by simpa using h
      simp only [List.foldl_cons, List.filter_cons]
      rw [hb]
      exact ih (max a m.order_index)
    · have hb : (m.conversation_id == cid) = false := by simpa using h
      simp only [List.foldl_cons, List.filter_cons]
      rw [hb]
      exact ih a

lemma rangeInt_succ (n : Nat) : rangeInt (n + 1) = rangeInt n ++ [Int.ofNat n] := by
  unfold rangeInt
  rw [List.range_succ, List.map_append]
  rfl

lemma foldl_max_range (n : Nat) :
    (rangeInt n).foldl max (-1) = (n : Int) - 1 := by
  induction n with
  | zero => rfl
  | succ k ih =>
    rw [rangeInt_succ, List.foldl_append, ih]
    show max ((k : Int) - 1) (Int.ofNat k) = ((k + 1 : Nat) : Int) - 1
    rw [Int.ofNat_eq_coe, max_eq_right (by omega)]
    push_cast
    ring

lemma next_order_index_eq (db : DB) (cid : Nat) :
    _next_order_index db cid = (conv_order_indices db cid).foldl max (-1) + 1 := by
  unfold _next_order_index conv_order_indices
  rw [foldl_max_filter]

/-- What a successful default-`order_index` `create_message` did: the new
row's fields and the new database. -/
lemma create_message_ok_elim {db : DB} {cid : Nat} {content : String}
    {s : Option String} {p : Option Nat} {a : Option String} {m : Message} {db' : DB}
    (h : create_message db cid content none s p a = Except.ok (m, db')) :
    m = ⟨db.nextMsgId, cid, "user", content, _next_order_index db cid, s, p, a, db.now⟩ ∧
    db' = { db with
      msgs := db.msgs ++ [⟨db.nextMsgId, cid, "user", content, _next_order_index db cid, s, p, a, db.now⟩],
      nextMsgId := db.nextMsgId + 1 } := by
  simp only [create_message] at h
  split at h
  · exact absurd h (by simp)
  split at h
  · exact absurd h (by simp)
  split at h
  · exact absurd h (by simp)
  split at h
  · exact absurd h (by simp)
  rename_i h1 h2 h3 h4
  rw [show get_message { db with
        msgs := db.msgs ++ [⟨db.nextMsgId, cid, "user", content, _next_order_index db cid, s, p, a, db.now⟩],
        nextMsgId := db.nextMsgId + 1 } db.nextMsgId
      = some ⟨db.nextMsgId, cid, "user", content, _next_order_index db cid, s, p, a, db.now⟩ from ?_] at h
  · obtain ⟨hm, hdb⟩ := Prod.mk.injEq .. ▸ Except.ok.inj h
    exact ⟨hm.symm, hdb.symm⟩
  · unfold get_message
    rw [List.find?_append]
    rw [show db.msgs.find? (fun mm => mm.id == db.nextMsgId) = none from ?_]
    · simp [List.find?]
    · rw [List.find?_eq_none]
      intro x hx hbx
      rw [Bool.not_eq_true] at h4
      rw [List.any_eq_false] at h4
      exact h4 x hx hbx

lemma conv_order_indices_append (db : DB) (cid : Nat) (msg : Message) (nid : Nat) :
    conv_order_indices { db with msgs := db.msgs ++ [msg], nextMsgId := nid } cid
      = conv_order_indices db cid ++
        (if msg.conversation_id == cid then [msg.order_index] else []) := by
  unfold conv_order_indices
  simp only [List.filter_append, List.map_append]
  by_cases h : msg.conversation_id = cid
  · rw [if_pos (by simpa using h)]
    simp [List.filter_cons, h]
  · rw [if_neg (by simpa using h)]
    simp [List.filter_cons, (by simpa using h : (msg.conversation_id == cid) = false)]

/-- C5: a default-`order_index` `create_message` assigns one more than the
current maximum `order_index` of the conversation (so 0 when the
conversation has no messages); consequently a conversation populated only
through `create_message` carries exactly the gap-free ascending, duplicate
free `order_index` sequence `0, 1, …, n-1`. -/
theorem order_index_assignment :
    (∀ db cid content s p a m db',
      create_message db cid content none s p a = Except.ok (m, db') →
        m.order_index = (conv_order_indices db cid).foldl max (-1) + 1 ∧
        (conv_order_indices db cid = [] → m.order_index = 0)) ∧
    (∀ cid db, PopulatedVia cid db →
      ∃ n, conv_order_indices db cid = rangeInt n ∧ (conv_order_indices db cid).Nodup) := by
  have hpart2 : ∀ cid db, PopulatedVia cid db →
      ∃ n, conv_order_indices db cid = rangeInt n := by
    intro cid db h
    induction h with
    | base db h0 => exact ⟨0, by simpa using h0⟩
    | step db db' cid' content s p a m hprev hok ih =>
      obtain ⟨n, hn⟩ := ih
      obtain ⟨hm, hdb⟩ := create_message_ok_elim hok
      rw [hdb, conv_order_indices_append]
      by_cases hc : cid' = cid
      · subst hc
        rw [if_pos (by simp)]
        refine ⟨n + 1, ?_⟩
        rw [hn, rangeInt_succ]
        simp only [List.append_cancel_left_eq, List.cons.injEq, and_true]
        rw [next_order_index_eq, hn, foldl_max_range, Int.ofNat_eq_coe]
        omega
      · rw [if_neg (by simpa using hc)]
        exact ⟨n, by simpa using hn⟩
  constructor
  · intro db cid content s p a m db' h
    obtain ⟨hm, _⟩ := create_message_ok_elim h
    constructor
    · rw [hm]
      show _next_order_index db cid = _
      rw [next_order_index_eq]
    · intro hempty
      rw [hm]
      show _next_order_index db cid = 0
      rw [next_order_index_eq, hempty]
      rfl
  · intro cid db h
    obtain ⟨n, hn⟩ := hpart2 cid db h
    refine ⟨n, hn, ?_⟩
    rw [hn]
    exact (List.nodup_range n).map (fun x y hxy => Int.ofNat.inj hxy)

/-- Witness for C5: populating a fresh conversation with two messages
through `create_message` yields order indices `[0, 1]`. -/
theorem order_index_assignment_witness :
    ∃ n, conv_order_indices dbChain 1 = rangeInt n ∧ (conv_order_indices dbChain 1).Nodup :=
  order_index_assignment.2 1 dbChain
    (PopulatedVia.step dbSample dbChain 1 "more" none (some 1) none msgChild
      (PopulatedVia.step dbConvOnly dbSample 1 "hi" none none none msgSample
        (PopulatedVia.base dbConvOnly rfl) rfl)
      rfl)

/-! ## Orchestrator stage lemmas -/

lemma get_message_eq_of_msgs {dbA dbB : DB} (h : dbA.msgs = dbB.msgs) (j : Nat) :
    get_message dbA j = get_message dbB j := by
  unfold get_message
  rw [h]

lemma get_conversation_map (db : DB) (t : String) (cid j : Nat) :
    get_conversation { db with convs := db.convs.map (fun cc => if cc.id == cid then { cc with title := t } else cc) } j
      = (get_conversation db j).map (fun cc => if cc.id == cid then { cc with title := t } else cc) := by
  unfold get_conversation
  exact find?_map_pres (fun a => by by_cases h : a.id = cid <;> simp [h]) db.convs

/-- Success of the assistant-reply update issued by `_stream_llm_reply`. -/
lemma update_reply_ok (db : DB) (uid : Nat) (x : String) (m : Message)
    (hm : get_message db uid = some m) :
    update_message db uid { assistant_reply := some x }
      = Except.ok ({ m with assistant_reply := some x },
        { db with msgs := db.msgs.map (fun mm =>
            if mm.id == uid then applyUpdate { assistant_reply := some x } mm else mm) }) := by
  rw [update_message_ok_noconstraint db uid { assistant_reply := some x } m hm (by simp) rfl rfl]
  rfl

/-- Success of the summary update issued by `_stream_llm_reply`. -/
lemma update_summary_ok (db : DB) (uid : Nat) (x : String) (m : Message)
    (hm : get_message db uid = some m) :
    update_message db uid { summary := some x }
      = Except.ok ({ m with summary := some x },
        { db with msgs := db.msgs.map (fun mm =>
            if mm.id == uid then applyUpdate { summary := some x } mm else mm) }) := by
  rw [update_message_ok_noconstraint db uid { summary := some x } m hm (by simp) rfl rfl]
  rfl

/-- A successful `update_conversation` left the messages unchanged. -/
lemma update_conversation_ok_elim {db : DB} {cid : Nat} {t : String}
    {c : Conversation} {db' : DB}
    (h : update_conversation db cid (some t) = Except.ok (c, db')) :
    db'.msgs = db.msgs := by
  simp only [update_conversation] at h
  split at h
  · exact absurd h (by simp)
  · obtain ⟨h1, h2⟩ := Prod.mk.injEq .. ▸ Except.ok.inj h
    rw [← h2]

/-- What a successful `update_message` did to the store. -/
lemma update_message_ok_elim_msgs {db : DB} {uid : Nat} {u : MsgUpdate}
    {m' : Message} {db' : DB}
    (h : update_message db uid u = Except.ok (m', db')) :
    get_message db' uid = some m' ∧
    db'.msgs = db.msgs.map (fun mm => if mm.id == uid then applyUpdate u mm else mm) := by
  simp only [update_message] at h
  split at h
  · exact absurd h (by simp)
  split at h
  · exact absurd h (by simp)
  split at h
  · exact absurd h (by simp)
  rename_i mm heq
  obtain ⟨h1, h2⟩ := Prod.mk.injEq .. ▸ Except.ok.inj h
  rw [← h2, ← h1]
  exact ⟨heq, rfl⟩

/-- Every result of the title step carries the frames, flags and prompt of
the successful-stream branch. -/
lemma title_step_shape (cid : Nat) (content : String) (cv : Conversation)
    (frames : List Frame) (llm : List (String × String)) (um2 : Message) (db2 : DB)
    (st : Option String) :
    ∃ dbf r, title_step cid content cv frames llm um2 db2 st
      = ⟨frames, dbf, true, true, r, some llm⟩ := by
  simp only [title_step]
  repeat' split
  all_goals exact ⟨_, _, rfl⟩

/-- Every result of `finalize_success` carries the frames, flags and prompt
of the successful-stream branch. -/
lemma finalize_shape (cid : Nat) (content : String) (cv : Conversation)
    (frames : List Frame) (llm : List (String × String)) (um1 : Message) (db1 : DB)
    (so : CompleteOutcome) :
    ∃ dbf r, finalize_success cid content cv frames llm um1 db1 so
      = ⟨frames, dbf, true, true, r, some llm⟩ := by
  unfold finalize_success
  cases so <;> simp only
  case err e => apply title_step_shape
  case ok c =>
    by_cases hs : pyStrip c = ""
    · rw [if_pos hs]
      apply title_step_shape
    · rw [if_neg hs]
      cases heq : update_message db1 um1.id
          { content := none, order_index := none, summary := some (pyTake (pyStrip c) 255),
            parent_id := none, assistant_reply := none } with
      | error e => exact ⟨_, _, rfl⟩
      | ok pr =>
        obtain ⟨um2', db2'⟩ := pr
        apply title_step_shape

/-- The title step never changes the messages. -/
lemma title_step_msgs (cid : Nat) (content : String) (cv : Conversation)
    (frames : List Frame) (llm : List (String × String)) (um2 : Message) (db2 : DB)
    (st : Option String) :
    (title_step cid content cv frames llm um2 db2 st).db.msgs = db2.msgs := by
  simp only [title_step]
  repeat' split
  all_goals try rfl
  all_goals (rename_i fst db3 heq; exact update_conversation_ok_elim heq)

/-- The messages after `finalize_success`: unchanged, or rewritten by a
single summary update on `um1.id`. -/
lemma finalize_msgs (cid : Nat) (content : String) (cv : Conversation)
    (frames : List Frame) (llm : List (String × String)) (um1 : Message) (db1 : DB)
    (so : CompleteOutcome) :
    (finalize_success cid content cv frames llm um1 db1 so).db.msgs = db1.msgs ∨
    ∃ s', (finalize_success cid content cv frames llm um1 db1 so).db.msgs
      = db1.msgs.map (fun mm => if mm.id == um1.id then applyUpdate { summary := some s' } mm else mm) := by
  unfold finalize_success
  cases so <;> simp only
  case err e => exact Or.inl (title_step_msgs cid content cv frames llm um1 db1 none)
  case ok c =>
    by_cases hs : pyStrip c = ""
    · rw [if_pos hs]
      exact Or.inl (title_step_msgs cid content cv frames llm um1 db1 (some (pyStrip c)))
    · rw [if_neg hs]
      cases heq : update_message db1 um1.id
          { content := none, order_index := none, summary := some (pyTake (pyStrip c) 255),
            parent_id := none, assistant_reply := none } with
      | error e => exact Or.inl rfl
      | ok pr =>
        obtain ⟨um2', db2'⟩ := pr
        obtain ⟨hu, hd⟩ := update_message_ok_elim_msgs heq
        right
        refine ⟨pyTake (pyStrip c) 255, ?_⟩
        show (title_step cid content cv frames llm um2' db2' (some (pyTake (pyStrip c) 255))).db.msgs = _
        rw [title_step_msgs, hd]

/-- With summary derivation failed, `finalize_success` leaves the messages
untouched. -/
lemma finalize_msgs_err (cid : Nat) (content : String) (cv : Conversation)
    (frames : List Frame) (llm : List (String × String)) (um1 : Message) (db1 : DB)
    (e : String) :
    (finalize_success cid content cv frames llm um1 db1 (CompleteOutcome.err e)).db.msgs
      = db1.msgs := by
  unfold finalize_success
  simp only
  exact title_step_msgs cid content cv frames llm um1 db1 none

/-- Exact behavior of the title step: no exception, and the conversation
row is retitled exactly when the admitted conversation still carries a
placeholder/empty title, the message is the conversation's first, and the
candidate is non-empty. -/
lemma title_step_title (cid : Nat) (content : String) (cv : Conversation)
    (frames : List Frame) (llm : List (String × String)) (um2 : Message) (db2 : DB)
    (st : Option String) (c0 : Conversation)
    (hconv : get_conversation db2 cid = some c0) :
    (title_step cid content cv frames llm um2 db2 st).raised = none ∧
    get_conversation (title_step cid content cv frames llm um2 db2 st).db cid
      = some (if ((cv.title = "新对话" ∨ cv.title = "") ∧ um2.order_index = 0) ∧
            (match st with
              | some s => if s = "" then pyStrip content else s
              | none => pyStrip content) ≠ ""
          then { c0 with title := pyTake (match st with
              | some s => if s = "" then pyStrip content else s
              | none => pyStrip content) 255 } else c0) := by
  simp only [title_step]
  generalize (match st with
    | some s => if s = "" then pyStrip content else s
    | none => pyStrip content) = cand
  by_cases h1 : (cv.title = "新对话" ∨ cv.title = "") ∧ um2.order_index = 0
  · rw [if_pos h1]
    by_cases h2 : cand = ""
    · rw [if_pos h2, if_neg (fun hc => hc.2 h2)]
      exact ⟨rfl, hconv⟩
    · rw [if_neg h2, update_conversation_ok db2 cid (pyTake cand 255) c0 hconv]
      refine ⟨rfl, ?_⟩
      show get_conversation { db2 with convs := db2.convs.map (fun cc =>
          if cc.id == cid then { cc with title := pyTake cand 255 } else cc) } cid = _
      rw [get_conversation_map, hconv, if_pos ⟨h1, h2⟩]
      simp [get_conversation_id_eq hconv]
  · rw [if_neg h1, if_neg (fun hc => h1 hc.1)]
    exact ⟨rfl, hconv⟩

/-- Exact behavior of `finalize_success`: no exception surfaces (in
particular a summary failure is swallowed), and the conversation title is
updated exactly under the placeholder/first-message/non-empty-candidate
condition with `title_candidate_of`. -/
lemma finalize_title (cid : Nat) (content : String) (cv : Conversation)
    (frames : List Frame) (llm : List (String × String)) (um1 : Message) (db1 : DB)
    (so : CompleteOutcome) (c0 : Conversation)
    (hum : get_message db1 um1.id = some um1)
    (hconv : get_conversation db1 cid = some c0) :
    (finalize_success cid content cv frames llm um1 db1 so).raised = none ∧
    get_conversation (finalize_success cid content cv frames llm um1 db1 so).db cid
      = some (if ((cv.title = "新对话" ∨ cv.title = "") ∧ um1.order_index = 0) ∧
            title_candidate_of so content ≠ ""
          then { c0 with title := pyTake (title_candidate_of so content) 255 } else c0) := by
  unfold finalize_success
  cases so <;> simp only
  case err e =>
    have h := title_step_title cid content cv frames llm um1 db1 none c0 hconv
    simpa [title_candidate_of] using h
  case ok c =>
    by_cases hs : pyStrip c = ""
    · rw [if_pos hs]
      have h := title_step_title cid content cv frames llm um1 db1 (some (pyStrip c)) c0 hconv
      simpa [title_candidate_of, hs] using h
    · rw [if_neg hs]
      rw [update_summary_ok db1 um1.id (pyTake (pyStrip c) 255) um1 hum]
      have hconv2 : get_conversation { db1 with msgs := db1.msgs.map (fun mm =>
          if mm.id == um1.id then applyUpdate { summary := some (pyTake (pyStrip c) 255) } mm else mm) } cid
          = some c0 := hconv
      have h := title_step_title cid content cv frames llm
        { um1 with summary := some (pyTake (pyStrip c) 255) }
        { db1 with msgs := db1.msgs.map (fun mm =>
          if mm.id == um1.id then applyUpdate { summary := some (pyTake (pyStrip c) 255) } mm else mm) }
        (some (pyTake (pyStrip c) 255)) c0 hconv2
      simpa [title_candidate_of, hs] using h

/-- Reduction of the upstream branch of `_stream_llm_reply` on a
successful stream to `finalize_success`. -/
lemma stream_reply_ok_eq (db : DB) (cv : Conversation) (m0 : Message)
    (cid : Nat) (content : String) (frags : List String) (so : CompleteOutcome)
    (hq : is_model_related_question content = false)
    (hm : get_message db m0.id = some m0) :
    _stream_llm_reply cid content cv m0 db (StreamOutcome.ok frags) so
      = finalize_success cid content cv
          ([Frame.message_id m0.id] ++ frags.map Frame.delta ++ [Frame.done])
          (build_llm_messages (get_message_path_to_root db m0.id))
          { m0 with assistant_reply := some (pyStrip (String.join frags)) }
          { db with msgs := db.msgs.map (fun mm =>
            if mm.id == m0.id
            then applyUpdate { assistant_reply := some (pyStrip (String.join frags)) } mm
            else mm) }
          so := by
  unfold _stream_llm_reply
  rw [hq]
  simp only [Bool.false_eq_true, if_false]
  rw [update_reply_ok db m0.id (pyStrip (String.join frags)) m0 hm]

/-- `get_message` after the reply update of the upstream branch. -/
lemma stream_reply_db1 (db : DB) (m0 : Message) (R : String)
    (hm : get_message db m0.id = some m0) :
    get_message { db with msgs := db.msgs.map (fun mm =>
        if mm.id == m0.id then applyUpdate { assistant_reply := some R } mm else mm) } m0.id
      = some { m0 with assistant_reply := some R } := by
  rw [get_message_map, hm]
  simp only [Option.map_some']
  rw [show (m0.id == m0.id) = true from by simp]
  rfl

/-! ## C1 -/

/-- C1: in the upstream branch, for every finite fragment sequence the
orchestrator emits one delta frame per fragment in arrival order between
the `message_id` frame and the terminal `done` frame, and after the `done`
frame it persists the whitespace-trimmed concatenation of the fragments as
the message's `assistant_reply` (whatever the later summary/title steps
do). -/
theorem upstream_relay_order_and_persist (db : DB) (cv : Conversation) (m0 : Message)
    (cid : Nat) (content : String) (frags : List String) (so : CompleteOutcome)
    (hq : is_model_related_question content = false)
    (hm : get_message db m0.id = some m0) :
    (_stream_llm_reply cid content cv m0 db (StreamOutcome.ok frags) so).frames
      = [Frame.message_id m0.id] ++ frags.map Frame.delta ++ [Frame.done] ∧
    ((get_message (_stream_llm_reply cid content cv m0 db (StreamOutcome.ok frags) so).db m0.id).map
      (fun mm => mm.assistant_reply)) = some (some (pyStrip (String.join frags))) := by
  rw [stream_reply_ok_eq db cv m0 cid content frags so hq hm]
  set F := [Frame.message_id m0.id] ++ frags.map Frame.delta ++ [Frame.done] with hF
  set L := build_llm_messages (get_message_path_to_root db m0.id) with hL
  set um1 : Message := { m0 with assistant_reply := some (pyStrip (String.join frags)) } with hum1
  set db1 : DB := { db with msgs := db.msgs.map (fun mm =>
    if mm.id == m0.id
    then applyUpdate { assistant_reply := some (pyStrip (String.join frags)) } mm
    else mm) } with hdb1
  have hget1 : get_message db1 m0.id = some um1 :=
    stream_reply_db1 db m0 (pyStrip (String.join frags)) hm
  constructor
  · obtain ⟨dbf, r, hshape⟩ := finalize_shape cid content cv F L um1 db1 so
    rw [hshape]
  · cases finalize_msgs cid content cv F L um1 db1 so with
    | inl hmsgs =>
      rw [get_message_eq_of_msgs hmsgs m0.id, hget1]
      rfl
    | inr hmsgs =>
      obtain ⟨s', hmsgs⟩ := hmsgs
      have hstep : get_message (finalize_success cid content cv F L um1 db1 so).db m0.id
          = ((db1.msgs.map (fun mm =>
            if mm.id == um1.id then applyUpdate { summary := some s' } mm else mm)).find?
              (fun mm => mm.id == m0.id)) := by
        unfold get_message
        rw [hmsgs]
      rw [hstep, find?_map_pres (fun a => by by_cases hh : a.id = um1.id <;> simp [hh, applyUpdate_id])]
      rw [show db1.msgs.find? (fun mm => mm.id == m0.id) = get_message db1 m0.id from rfl, hget1]
      simp [hum1, applyUpdate]

/-- Witness for C1 at fragments `["A", "B", "C"]`: deltas `A`, `B`, `C` in
that order and a persisted `assistant_reply` of `"ABC"`. -/
theorem upstream_relay_order_and_persist_witness :
    (_stream_llm_reply 1 "hi" convSample msgSample dbSample
        (StreamOutcome.ok ["A", "B", "C"]) (CompleteOutcome.ok "短标题")).frames
      = [Frame.message_id 1] ++ [Frame.delta "A", Frame.delta "B", Frame.delta "C"] ++ [Frame.done] ∧
    ((get_message (_stream_llm_reply 1 "hi" convSample msgSample dbSample
        (StreamOutcome.ok ["A", "B", "C"]) (CompleteOutcome.ok "短标题")).db 1).map
      (fun mm => mm.assistant_reply)) = some (some "ABC") :=
  upstream_relay_order_and_persist dbSample convSample msgSample 1 "hi"
    ["A", "B", "C"] (CompleteOutcome.ok "短标题") (by decide) rfl

/-! ## C4 -/

/-- C4: when the upstream stream raises `LLMClientError` after yielding a
prefix of fragments, the orchestrator emits the prefix deltas followed by
an error frame, emits no `done` frame, persists nothing (the database is
untouched, so the user message keeps its absent `assistant_reply`), and
derives neither summary nor title; with no fragments the frames are
exactly `message_id` then `error`. -/
theorem upstream_failure_frames (db : DB) (cv : Conversation) (m0 : Message)
    (cid : Nat) (content : String) (frags : List String) (errmsg : String)
    (so : CompleteOutcome)
    (hq : is_model_related_question content = false) :
    (_stream_llm_reply cid content cv m0 db (StreamOutcome.fails frags errmsg) so).frames
      = [Frame.message_id m0.id] ++ frags.map Frame.delta
          ++ [Frame.error ("LLM 请求失败: " ++ errmsg)] ∧
    Frame.done ∉ (_stream_llm_reply cid content cv m0 db (StreamOutcome.fails frags errmsg) so).frames ∧
    (_stream_llm_reply cid content cv m0 db (StreamOutcome.fails frags errmsg) so).db = db ∧
    (_stream_llm_reply cid content cv m0 db (StreamOutcome.fails frags errmsg) so).calledComplete = false ∧
    (_stream_llm_reply cid content cv m0 db (StreamOutcome.fails frags errmsg) so).raised = none ∧
    (∀ m1, get_message db m0.id = some m1 → m1.assistant_reply = none →
      (get_message (_stream_llm_reply cid content cv m0 db
          (StreamOutcome.fails frags errmsg) so).db m0.id).map (fun mm => mm.assistant_reply)
        = some none) ∧
    (frags = [] →
      (_stream_llm_reply cid content cv m0 db (StreamOutcome.fails frags errmsg) so).frames
        = [Frame.message_id m0.id, Frame.error ("LLM 请求失败: " ++ errmsg)]) := by
  have hres : _stream_llm_reply cid content cv m0 db (StreamOutcome.fails frags errmsg) so
      = ⟨[Frame.message_id m0.id] ++ frags.map Frame.delta
          ++ [Frame.error ("LLM 请求失败: " ++ errmsg)],
        db, true, false, none,
        some (build_llm_messages (get_message_path_to_root db m0.id))⟩ := by
    unfold _stream_llm_reply
    rw [hq]
    rfl
  rw [hres]
  refine ⟨rfl, ?_, rfl, rfl, rfl, ?_, ?_⟩
  · simp
  · intro m1 hm1 har
    show (get_message db m0.id).map (fun mm => mm.assistant_reply) = some none
    rw [hm1, Option.map_some', har]
  · intro hfr
    rw [hfr]
    rfl

/-- Witness for C4 at an upstream failure before any fragment. -/
theorem upstream_failure_frames_witness :
    (_stream_llm_reply 1 "hi" convSample msgSample dbSample
        (StreamOutcome.fails [] "boom") (CompleteOutcome.ok "s")).frames
      = [Frame.message_id 1] ++ ([] : List String).map Frame.delta
          ++ [Frame.error ("LLM 请求失败: " ++ "boom")] ∧
    Frame.done ∉ (_stream_llm_reply 1 "hi" convSample msgSample dbSample
        (StreamOutcome.fails [] "boom") (CompleteOutcome.ok "s")).frames ∧
    (_stream_llm_reply 1 "hi" convSample msgSample dbSample
        (StreamOutcome.fails [] "boom") (CompleteOutcome.ok "s")).db = dbSample ∧
    (_stream_llm_reply 1 "hi" convSample msgSample dbSample
        (StreamOutcome.fails [] "boom") (CompleteOutcome.ok "s")).calledComplete = false ∧
    (_stream_llm_reply 1 "hi" convSample msgSample dbSample
        (StreamOutcome.fails [] "boom") (CompleteOutcome.ok "s")).raised = none ∧
    (∀ m1, get_message dbSample 1 = some m1 → m1.assistant_reply = none →
      (get_message (_stream_llm_reply 1 "hi" convSample msgSample dbSample
          (StreamOutcome.fails [] "boom") (CompleteOutcome.ok "s")).db 1).map
        (fun mm => mm.assistant_reply) = some none) ∧
    (([] : List String) = [] →
      (_stream_llm_reply 1 "hi" convSample msgSample dbSample
          (StreamOutcome.fails [] "boom") (CompleteOutcome.ok "s")).frames
        = [Frame.message_id 1, Frame.error ("LLM 请求失败: " ++ "boom")]) :=
  upstream_failure_frames dbSample convSample msgSample 1 "hi" [] "boom"
    (CompleteOutcome.ok "s") (by decide)

/-! ## C3 -/

/-- C3: content matching the canned-identity rules never invokes the
upstream client: the orchestrator emits the fixed identity answer one
character per delta frame, then `done`, persists exactly the fixed text as
`assistant_reply` (summary untouched), updates no conversation title, and
its output is independent of the upstream outcomes; content matching no
rule always invokes the upstream client. -/
theorem canned_identity_branch (db : DB) (cv : Conversation) (m0 : Message)
    (cid : Nat) (content : String) (so : StreamOutcome) (su : CompleteOutcome)
    (hm : get_message db m0.id = some m0) :
    (is_model_related_question content = true →
      (_stream_llm_reply cid content cv m0 db so su).calledStream = false ∧
      (_stream_llm_reply cid content cv m0 db so su).calledComplete = false ∧
      (_stream_llm_reply cid content cv m0 db so su).frames
        = [Frame.message_id m0.id]
            ++ MODEL_IDENTITY_RESPONSE.toList.map (fun c => Frame.delta c.toString)
            ++ [Frame.done] ∧
      get_message (_stream_llm_reply cid content cv m0 db so su).db m0.id
        = some { m0 with assistant_reply := some MODEL_IDENTITY_RESPONSE } ∧
      (_stream_llm_reply cid content cv m0 db so su).db.convs = db.convs ∧
      (∀ so2 su2, _stream_llm_reply cid content cv m0 db so2 su2
        = _stream_llm_reply cid content cv m0 db so su)) ∧
    (is_model_related_question content = false →
      (_stream_llm_reply cid content cv m0 db so su).calledStream = true) := by
  constructor
  · intro h
    have hred : ∀ (so2 : StreamOutcome) (su2 : CompleteOutcome),
        _stream_llm_reply cid content cv m0 db so2 su2
          = ⟨[Frame.message_id m0.id]
              ++ MODEL_IDENTITY_RESPONSE.toList.map (fun c => Frame.delta c.toString)
              ++ [Frame.done],
            { db with msgs := db.msgs.map (fun mm =>
              if mm.id == m0.id
              then applyUpdate { assistant_reply := some MODEL_IDENTITY_RESPONSE } mm
              else mm) },
            false, false, none, none⟩ := by
      intro so2 su2
      unfold _stream_llm_reply
      rw [h, update_reply_ok db m0.id MODEL_IDENTITY_RESPONSE m0 hm]
      rfl
    rw [hred so su]
    exact ⟨rfl, rfl, rfl, stream_reply_db1 db m0 MODEL_IDENTITY_RESPONSE hm, rfl,
      fun so2 su2 => by rw [hred so2 su2]⟩
  · intro h
    unfold _stream_llm_reply
    rw [h]
    simp only [Bool.false_eq_true, if_false]
    cases so with
    | fails frags msg => rfl
    | ok frags =>
      simp only
      cases hu : update_message db m0.id
          { content := none, order_index := none, summary := none, parent_id := none,
            assistant_reply := some (pyStrip (String.join frags)) } with
      | error e => rfl
      | ok pr =>
        obtain ⟨um1, db1⟩ := pr
        obtain ⟨dbf, r, hshape⟩ := finalize_shape cid content cv
          ([Frame.message_id m0.id] ++ frags.map Frame.delta ++ [Frame.done])
          (build_llm_messages (get_message_path_to_root db m0.id)) um1 db1 su
        show (finalize_success cid content cv
          ([Frame.message_id m0.id] ++ frags.map Frame.delta ++ [Frame.done])
          (build_llm_messages (get_message_path_to_root db m0.id)) um1 db1 su).calledStream = true
        rw [hshape]

/-- Witness for C3: the identity question `"你是谁"` short-circuits; the
unrelated content `"hello"` reaches the upstream client. -/
theorem canned_identity_branch_witness :
    ((_stream_llm_reply 1 "你是谁" convSample msgSample dbSample
        (StreamOutcome.ok ["A"]) (CompleteOutcome.ok "s")).calledStream = false ∧
      (_stream_llm_reply 1 "你是谁" convSample msgSample dbSample
        (StreamOutcome.ok ["A"]) (CompleteOutcome.ok "s")).calledComplete = false ∧
      (_stream_llm_reply 1 "你是谁" convSample msgSample dbSample
        (StreamOutcome.ok ["A"]) (CompleteOutcome.ok "s")).frames
        = [Frame.message_id 1]
            ++ MODEL_IDENTITY_RESPONSE.toList.map (fun c => Frame.delta c.toString)
            ++ [Frame.done] ∧
      get_message (_stream_llm_reply 1 "你是谁" convSample msgSample dbSample
        (StreamOutcome.ok ["A"]) (CompleteOutcome.ok "s")).db 1
        = some { msgSample with assistant_reply := some MODEL_IDENTITY_RESPONSE } ∧
      (_stream_llm_reply 1 "你是谁" convSample msgSample dbSample
        (StreamOutcome.ok ["A"]) (CompleteOutcome.ok "s")).db.convs = dbSample.convs ∧
      (∀ so2 su2, _stream_llm_reply 1 "你是谁" convSample msgSample dbSample so2 su2
        = _stream_llm_reply 1 "你是谁" convSample msgSample dbSample
            (StreamOutcome.ok ["A"]) (CompleteOutcome.ok "s"))) ∧
    (_stream_llm_reply 1 "hello" convSample msgSample dbSample
      (StreamOutcome.ok ["A"]) (CompleteOutcome.ok "s")).calledStream = true :=
  ⟨(canned_identity_branch dbSample convSample msgSample 1 "你是谁"
      (StreamOutcome.ok ["A"]) (CompleteOutcome.ok "s") rfl).1 (by decide),
   (canned_identity_branch dbSample convSample msgSample 1 "hello"
      (StreamOutcome.ok ["A"]) (CompleteOutcome.ok "s") rfl).2 (by decide)⟩

/-! ## C7 -/

/-- C7: after a successful upstream stream, a failure of the summary
`complete` call surfaces no error to the caller and aborts nothing (the
frames are the same as on summary success and the message's summary simply
remains what it was, absent if absent); the conversation title is updated
exactly when the admitted title is still the placeholder or empty, the
message's `order_index` is 0 and the candidate — the derived summary when
present, else the trimmed original content — is non-empty, truncated to
255 characters. -/
theorem summary_title_step (db : DB) (cv : Conversation) (m0 : Message) (cid : Nat)
    (content : String) (frags : List String) (so : CompleteOutcome) (c0 : Conversation)
    (hq : is_model_related_question content = false)
    (hm : get_message db m0.id = some m0)
    (hc : get_conversation db cid = some c0) :
    (_stream_llm_reply cid content cv m0 db (StreamOutcome.ok frags) so).frames
      = [Frame.message_id m0.id] ++ frags.map Frame.delta ++ [Frame.done] ∧
    (_stream_llm_reply cid content cv m0 db (StreamOutcome.ok frags) so).raised = none ∧
    (_stream_llm_reply cid content cv m0 db (StreamOutcome.ok frags) so).calledComplete = true ∧
    (∀ e, so = CompleteOutcome.err e →
      get_message (_stream_llm_reply cid content cv m0 db (StreamOutcome.ok frags) so).db m0.id
        = some { m0 with assistant_reply := some (pyStrip (String.join frags)) }) ∧
    get_conversation (_stream_llm_reply cid content cv m0 db (StreamOutcome.ok frags) so).db cid
      = some (if ((cv.title = "新对话" ∨ cv.title = "") ∧ m0.order_index = 0) ∧
            title_candidate_of so content ≠ ""
          then { c0 with title := pyTake (title_candidate_of so content) 255 } else c0) := by
  rw [stream_reply_ok_eq db cv m0 cid content frags so hq hm]
  set F := [Frame.message_id m0.id] ++ frags.map Frame.delta ++ [Frame.done] with hF
  set L := build_llm_messages (get_message_path_to_root db m0.id) with hL
  set um1 : Message := { m0 with assistant_reply := some (pyStrip (String.join frags)) } with hum1
  set db1 : DB := { db with msgs := db.msgs.map (fun mm =>
    if mm.id == m0.id
    then applyUpdate { assistant_reply := some (pyStrip (String.join frags)) } mm
    else mm) } with hdb1
  have hget1 : get_message db1 m0.id = some um1 :=
    stream_reply_db1 db m0 (pyStrip (String.join frags)) hm
  have hconv1 : get_conversation db1 cid = some c0 := hc
  have htitle := finalize_title cid content cv F L um1 db1 so c0 hget1 hconv1
  refine ⟨?_, htitle.1, ?_, ?_, htitle.2⟩
  · obtain ⟨dbf, r, hshape⟩ := finalize_shape cid content cv F L um1 db1 so
    rw [hshape]
  · obtain ⟨dbf, r, hshape⟩ := finalize_shape cid content cv F L um1 db1 so
    rw [hshape]
  · intro e he
    subst he
    have hmsgs := finalize_msgs_err cid content cv F L um1 db1 e
    rw [get_message_eq_of_msgs hmsgs m0.id, hget1]

/-- Witness for C7: a successful summary `"短标题"` on the first message of
a placeholder-titled conversation retitles it to `"短标题"`; at the same
state a failed summary call leaves the frames identical and falls back to
the trimmed content as title. -/
theorem summary_title_step_witness :
    (get_conversation (_stream_llm_reply 1 "hi" convSample msgSample dbSample
        (StreamOutcome.ok ["A"]) (CompleteOutcome.ok "短标题")).db 1
      = some (if ((convSample.title = "新对话" ∨ convSample.title = "") ∧ msgSample.order_index = 0) ∧
            title_candidate_of (CompleteOutcome.ok "短标题") "hi" ≠ ""
          then { convSample with title := pyTake (title_candidate_of (CompleteOutcome.ok "短标题") "hi") 255 }
          else convSample)) ∧
    ((_stream_llm_reply 1 "hi" convSample msgSample dbSample
        (StreamOutcome.ok ["A"]) (CompleteOutcome.err "down")).frames
      = [Frame.message_id 1] ++ ["A"].map Frame.delta ++ [Frame.done] ∧
      (_stream_llm_reply 1 "hi" convSample msgSample dbSample
        (StreamOutcome.ok ["A"]) (CompleteOutcome.err "down")).raised = none ∧
      get_message (_stream_llm_reply 1 "hi" convSample msgSample dbSample
        (StreamOutcome.ok ["A"]) (CompleteOutcome.err "down")).db 1
        = some { msgSample with assistant_reply := some "A" }) :=
  ⟨(summary_title_step dbSample convSample msgSample 1 "hi" ["A"]
      (CompleteOutcome.ok "短标题") convSample (by decide) rfl rfl).2.2.2.2,
   ⟨(summary_title_step dbSample convSample msgSample 1 "hi" ["A"]
      (CompleteOutcome.err "down") convSample (by decide) rfl rfl).1,
    (summary_title_step dbSample convSample msgSample 1 "hi" ["A"]
      (CompleteOutcome.err "down") convSample (by decide) rfl rfl).2.1,
    (summary_title_step dbSample convSample msgSample 1 "hi" ["A"]
      (CompleteOutcome.err "down") convSample (by decide) rfl rfl).2.2.2.1 "down" rfl⟩⟩

lemma startsWith_data_ne_empty {line : String} (h : pyStartsWith line "data:" = true) :
    line ≠ "" := by
  intro hl
  subst hl
  exact absurd h (by decide)

lemma extract_delta_wellShaped (j : Json) (hw : wellShaped j = true) :
    extract_delta j = Except.ok (spec_first_choice_content j) := by
  cases j with
  | null => simp [wellShaped] at hw
  | boolean b => simp [wellShaped] at hw
  | num n => simp [wellShaped] at hw
  | str s => simp [wellShaped] at hw
  | arr xs => simp [wellShaped] at hw
  | obj kvs =>
    simp only [wellShaped] at hw
    simp only [extract_delta, spec_first_choice_content, dictGet]
    cases hc : jget kvs "choices" with
    | none => simp [pyTruthy]
    | some c =>
      rw [hc] at hw
      simp only at hw ⊢
      cases htc : pyTruthy c with
      | false =>
        cases c with
        | null => rfl
        | boolean b => simp [pyTruthy] at htc; subst htc; rfl
        | num n => simp [pyTruthy] at htc; subst htc; rfl
        | str s => simp [pyTruthy] at htc; subst htc; rfl
        | arr ys => simp [pyTruthy] at htc; subst htc; rfl
        | obj o => simp [pyTruthy] at htc; subst htc; rfl
      | true =>
        rw [htc] at hw
        simp only [Bool.not_true, Bool.false_or] at hw
        cases c with
        | null => simp [pyTruthy] at htc
        | boolean b => simp at hw
        | num n => simp at hw
        | str s => simp at hw
        | obj o => simp at hw
        | arr xs =>
          cases xs with
          | nil => simp at hw
          | cons x tl =>
            cases x with
            | null => simp at hw
            | boolean b => simp at hw
            | num n => simp at hw
            | str s => simp at hw
            | arr ys => simp at hw
            | obj ckvs =>
              simp only at hw
              simp only [eq_self_iff_true, if_true]
              rw [show (!pyTruthy (Json.arr (Json.obj ckvs :: tl))) = false from rfl]
              simp only [Bool.false_eq_true, if_false, index0, dictGet]
              cases hd : jget ckvs "delta" with
              | none => rfl
              | some d =>
                rw [hd] at hw
                simp only at hw
                cases htd : pyTruthy d with
                | false =>
                  cases d with
                  | null => rfl
                  | boolean b => simp [pyTruthy] at htd; subst htd; rfl
                  | num n => simp [pyTruthy] at htd; subst htd; rfl
                  | str s => simp [pyTruthy] at htd; subst htd; rfl
                  | arr ys => simp [pyTruthy] at htd; subst htd; rfl
                  | obj o => simp [pyTruthy] at htd; subst htd; rfl
                | true =>
                  rw [htd] at hw
                  simp only [Bool.not_true, Bool.false_or] at hw
                  cases d with
                  | null => simp [pyTruthy] at htd
                  | boolean b => simp at hw
                  | num n => simp at hw
                  | str s => simp at hw
                  | arr ys => simp at hw
                  | obj dkvs =>
                    simp only
                    rw [if_pos htd]
                    simp only [dictGet]
                    cases hcon : jget dkvs "content" with
                    | none => rfl
                    | some v => rfl


lemma extract_delta_badShaped (j : Json) (hw : wellShaped j = false) :
    ∃ e, extract_delta j = Except.error e := by
  cases j with
  | null => exact ⟨PyErr.attributeError, rfl⟩
  | boolean b => exact ⟨PyErr.attributeError, rfl⟩
  | num n => exact ⟨PyErr.attributeError, rfl⟩
  | str s => exact ⟨PyErr.attributeError, rfl⟩
  | arr xs => exact ⟨PyErr.attributeError, rfl⟩
  | obj kvs =>
    simp only [wellShaped] at hw
    simp only [extract_delta, dictGet]
    cases hc : jget kvs "choices" with
    | none => rw [hc] at hw; simp at hw
    | some c =>
      rw [hc] at hw
      simp only at hw ⊢
      cases htc : pyTruthy c with
      | false => rw [htc] at hw; simp at hw
      | true =>
        rw [htc] at hw
        simp only [Bool.not_true, Bool.false_or] at hw
        cases c with
        | null => simp [pyTruthy] at htc
        | boolean b =>
          simp only [eq_self_iff_true, if_true]
          rw [htc]
          exact ⟨PyErr.typeError, rfl⟩
        | num n =>
          simp only [eq_self_iff_true, if_true]
          rw [htc]
          exact ⟨PyErr.typeError, rfl⟩
        | obj o =>
          simp only [eq_self_iff_true, if_true]
          rw [htc]
          exact ⟨PyErr.keyError, rfl⟩
        | str s =>
          simp only [eq_self_iff_true, if_true]
          rw [htc]
          simp only [index0]
          cases hsl : s.toList with
          | nil =>
            cases s with
            | mk data =>
              simp only [String.toList] at hsl
              subst hsl
              exact absurd htc (by decide)
          | cons ch t => exact ⟨PyErr.attributeError, rfl⟩
        | arr ys =>
          cases ys with
          | nil => simp [pyTruthy] at htc
          | cons y t =>
            cases y with
            | null => exact ⟨PyErr.attributeError, rfl⟩
            | boolean b => exact ⟨PyErr.attributeError, rfl⟩
            | num n => exact ⟨PyErr.attributeError, rfl⟩
            | str s2 => exact ⟨PyErr.attributeError, rfl⟩
            | arr zs => exact ⟨PyErr.attributeError, rfl⟩
            | obj ckvs =>
              simp only at hw
              cases hd : jget ckvs "delta" with
              | none => rw [hd] at hw; simp at hw
              | some d =>
                rw [hd] at hw
                simp only at hw
                have htd : pyTruthy d = true := by
                  cases htd0 : pyTruthy d with
                  | true => rfl
                  | false => rw [htd0] at hw; simp at hw
                rw [htd] at hw
                simp only [Bool.not_true, Bool.false_or] at hw
                simp only [eq_self_iff_true, if_true]
                rw [show (!pyTruthy (Json.arr (Json.obj ckvs :: t))) = false from rfl]
                simp only [Bool.false_eq_true, if_false, index0, dictGet]
                rw [hd]
                simp only
                rw [if_pos htd]
                cases d with
                | obj o => simp at hw
                | null => simp [pyTruthy] at htd
                | boolean b => exact ⟨PyErr.attributeError, rfl⟩
                | num n => exact ⟨PyErr.attributeError, rfl⟩
                | str s2 => exact ⟨PyErr.attributeError, rfl⟩
                | arr ys2 => exact ⟨PyErr.attributeError, rfl⟩


/-! ## C6 -/

/-- C6 counterexample: the line `data: null` carries well-formed JSON, so
under the claim as stated it would have to either yield the first choice's
content or be passed over, without failing the stream; instead
`parsed.get("choices")` raises an uncaught `AttributeError`
(`'NoneType' object has no attribute 'get'`) that escapes `_iter_sse` and
`_post_stream` — a stream failure that is not an `UpstreamError`. -/
theorem iter_sse_nonobject_payload_fails :
    _iter_sse (fun s => if s = "null" then some Json.null else none) ["data: null"]
      = ([], some PyErr.attributeError) ∧
    _post_stream (fun s => if s = "null" then some Json.null else none)
        (Transport.okStream ["data: null"])
      = ([], some (StreamErr.py PyErr.attributeError)) := by
  constructor <;> rfl

/-- C6 (amended): lines that are empty or not data-bearing are skipped; the
`data: [DONE]` sentinel ends the sequence without error; data lines whose
payload is malformed JSON are skipped; a data line whose parsed payload is
of the shape the extraction handles yields exactly the first choice's
delta-content — when present and truthy — and otherwise raises an uncaught
Python error that fails the stream; transport failures raise
`LLMClientError` only when the generator is consumed. -/
theorem iter_sse_protocol_amended :
    (∀ (parse : String → Option Json) (line : String) (rest : List String),
      pyStartsWith line "data:" = false →
      _iter_sse parse (line :: rest) = _iter_sse parse rest) ∧
    (∀ (parse : String → Option Json) (line : String) (rest : List String),
      pyStartsWith line "data:" = true → pyStrip (pyDrop line 5) = "[DONE]" →
      _iter_sse parse (line :: rest) = ([], none)) ∧
    (∀ (parse : String → Option Json) (line : String) (rest : List String),
      pyStartsWith line "data:" = true → pyStrip (pyDrop line 5) ≠ "[DONE]" →
      parse (pyStrip (pyDrop line 5)) = none →
      _iter_sse parse (line :: rest) = _iter_sse parse rest) ∧
    (∀ (parse : String → Option Json) (line : String) (rest : List String) (j : Json),
      pyStartsWith line "data:" = true → pyStrip (pyDrop line 5) ≠ "[DONE]" →
      parse (pyStrip (pyDrop line 5)) = some j → extract_delta j = Except.ok none →
      _iter_sse parse (line :: rest) = _iter_sse parse rest) ∧
    (∀ (parse : String → Option Json) (line : String) (rest : List String) (j v : Json),
      pyStartsWith line "data:" = true → pyStrip (pyDrop line 5) ≠ "[DONE]" →
      parse (pyStrip (pyDrop line 5)) = some j → extract_delta j = Except.ok (some v) →
      _iter_sse parse (line :: rest)
        = (v :: (_iter_sse parse rest).1, (_iter_sse parse rest).2)) ∧
    (∀ (parse : String → Option Json) (line : String) (rest : List String) (j : Json)
        (e : PyErr),
      pyStartsWith line "data:" = true → pyStrip (pyDrop line 5) ≠ "[DONE]" →
      parse (pyStrip (pyDrop line 5)) = some j → extract_delta j = Except.error e →
      _iter_sse parse (line :: rest) = ([], some e)) ∧
    (∀ j : Json, wellShaped j = true →
      extract_delta j = Except.ok (spec_first_choice_content j)) ∧
    (∀ j : Json, wellShaped j = false → ∃ e, extract_delta j = Except.error e) ∧
    (∀ (parse : String → Option Json) (msg : String),
      _post_stream parse (Transport.failure msg) = ([], some (StreamErr.upstream msg))) ∧
    (∀ (parse : String → Option Json) (lines : List String),
      _post_stream parse (Transport.okStream lines)
        = ((_iter_sse parse lines).1, (_iter_sse parse lines).2.map StreamErr.py)) := by
  refine ⟨?_, ?_, ?_, ?_, ?_, ?_, extract_delta_wellShaped, extract_delta_badShaped,
    fun parse msg => rfl, fun parse lines => rfl⟩
  · intro parse line rest h
    simp [_iter_sse, h]
  · intro parse line rest h1 h2
    have hne := startsWith_data_ne_empty h1
    simp [_iter_sse, h1, h2, hne]
  · intro parse line rest h1 h2 h3
    have hne := startsWith_data_ne_empty h1
    simp [_iter_sse, h1, h2, h3, hne]
  · intro parse line rest j h1 h2 h3 h4
    have hne := startsWith_data_ne_empty h1
    simp [_iter_sse, h1, h2, h3, h4, hne]
  · intro parse line rest j v h1 h2 h3 h4
    have hne := startsWith_data_ne_empty h1
    simp [_iter_sse, h1, h2, h3, h4, hne]
  · intro parse line rest j e h1 h2 h3 h4
    have hne := startsWith_data_ne_empty h1
    simp [_iter_sse, h1, h2, h3, h4, hne]

/-- Witness for the amended C6: a non-data line is skipped, the sentinel
terminates cleanly, and a transport failure surfaces as `LLMClientError`
at consumption. -/
theorem iter_sse_protocol_amended_witness :
    _iter_sse (fun _ => none) ["event: ping", "data: [DONE]"] = ([], none) ∧
    _post_stream (fun _ => none) (Transport.failure "conn refused")
      = ([], some (StreamErr.upstream "conn refused")) := by
  constructor
  · rw [iter_sse_protocol_amended.1 (fun _ => none) "event: ping" ["data: [DONE]"] (by decide)]
    exact iter_sse_protocol_amended.2.1 (fun _ => none) "data: [DONE]" [] (by decide) (by decide)
  · exact iter_sse_protocol_amended.2.2.2.2.2.2.2.2.1 (fun _ => none) "conn refused"

end FollowChat
